import Mathlib

/-!
A verification development for the Clinical Insight Bot
(`clinical_insight_bot.py`): a pure text-to-record extraction engine.

Modelling conventions:
* Input text is a list of Unicode code points (`Text := List Nat`); the
  source's `str.lower`/`str.upper` calls only affect ASCII letters in the
  clinical inputs of interest and are modelled by `lowerCode`/`upperCode`.
* Each Python regular expression used by the source is embedded as a `RE`
  value, and `research` implements `re.search` semantics: scan start
  positions left to right, at each position enumerate matches in Python's
  backtracking priority order (alternation prefers the left branch, greedy
  quantifiers prefer longer, lazy quantifiers prefer shorter).
* Every field update in the source has the shape "overwrite on match, keep
  the current value otherwise"; it is modelled as `(value t).getD current`
  where `value : Text → Option Text` depends only on the input text.
-/

/-- Clinical text: a list of character codes. -/
abbrev Text := List Nat

/-- Character codes of a Lean string literal. -/
def str (s : String) : Text := s.toList.map Char.toNat

/-- ASCII decimal digit. -/
def digitC (n : Nat) : Bool := 48 ≤ n && n ≤ 57

/-- Python `\s` on ASCII: space, tab, newline, carriage return, vertical tab, form feed. -/
def spaceC (n : Nat) : Bool := n == 32 || n == 9 || n == 10 || n == 13 || n == 11 || n == 12

/-- ASCII uppercase letter test. -/
def isUpperCode (n : Nat) : Bool := 65 ≤ n && n ≤ 90

/-- ASCII lowercase letter test. -/
def isLowerCode (n : Nat) : Bool := 97 ≤ n && n ≤ 122

/-- ASCII letter test (used for Python `str.title` case tracking). -/
def isAlphaCode (n : Nat) : Bool := isUpperCode n || isLowerCode n

/-- Python `\w`: letters, digits, underscore. -/
def wordC (n : Nat) : Bool := isAlphaCode n || digitC n || n == 95

/-- Python `.` without DOTALL: any character except newline. -/
def dotC (n : Nat) : Bool := n != 10

/-- The character class `[^.\n]`. -/
def notDotNlC (n : Nat) : Bool := n != 46 && n != 10

/-- The character class `[I1-6V]` from the ASA patterns. -/
def asaClassC (n : Nat) : Bool := n == 73 || (49 ≤ n && n ≤ 54) || n == 86

/-- The character class `[1-4IV]` from the Mallampati pattern. -/
def mallampatiC (n : Nat) : Bool := (49 ≤ n && n ≤ 52) || n == 73 || n == 86

/-- The character class `[-\s]`. -/
def dashSpaceC (n : Nat) : Bool := n == 45 || spaceC n

/-- `str.lower` on one character (ASCII case mapping). -/
def lowerCode (n : Nat) : Nat := if isUpperCode n then n + 32 else n

/-- `str.upper` on one character (ASCII case mapping). -/
def upperCode (n : Nat) : Nat := if isLowerCode n then n - 32 else n

/-- `text.lower()`. -/
def lowerL (t : Text) : Text := t.map lowerCode

/-- `text.upper()`. -/
def upperL (t : Text) : Text := t.map upperCode

/-- Bool-valued "is a prefix of" over texts. -/
def isPrefixB : Text → Text → Bool
  | [], _ => true
  | _ :: _, [] => false
  | a :: s, b :: t => a == b && isPrefixB s t

/-- Bool-valued substring test: Python's `needle in hay`. -/
def isInfixB (n : Text) : Text → Bool
  | [] => n.isEmpty
  | h@(_ :: t) => isPrefixB n h || isInfixB n t

/-- Python `str.strip()`: drop whitespace at both ends. -/
def pstrip (l : Text) : Text := ((l.dropWhile spaceC).reverse.dropWhile spaceC).reverse

/-- Helper for `str.title`: carries whether the previous character was a letter. -/
def ptitleGo : Bool → Text → Text
  | _, [] => []
  | prev, c :: rest => (if prev then lowerCode c else upperCode c) :: ptitleGo (isAlphaCode c) rest

/-- Python `str.title()`: uppercase a letter not preceded by a letter, lowercase the rest. -/
def ptitle (l : Text) : Text := ptitleGo false l

/-- Python `", ".join`. -/
def joinComma : List Text → Text
  | [] => []
  | [x] => x
  | x :: xs => x ++ str ", " ++ joinComma xs

/-- Abstract syntax of the regular expressions used by the source.
Quantifiers in the source only ever apply to single-character classes or to
literal words under `?`, which is all this syntax provides. -/
inductive RE where
  | eps : RE
  | lit : Text → RE
  | cls : (Nat → Bool) → RE
  | seq : RE → RE → RE
  | alt : RE → RE → RE
  | opt : RE → RE
  | cstar : (Nat → Bool) → RE
  | cplus : (Nat → Bool) → RE
  | lazystar : (Nat → Bool) → RE
  | bound : RE
  | grp : RE → RE

/-- Is the character at index `i` (if any) a word character? -/
def isWordAt (inp : Text) (i : Nat) : Bool :=
  match inp.drop i with
  | c :: _ => wordC c
  | [] => false

/-- Python `\b`: positions where word-ness changes (start/end of input count as non-word). -/
def wordBoundary (inp : Text) (p : Nat) : Bool :=
  (if p == 0 then false else isWordAt inp (p - 1)) != isWordAt inp p

/-- All ways a regex can match starting at position `p` of `inp`, as
`(end position, captured group span)` pairs, listed in Python's backtracking
priority order. -/
def runs (inp : Text) : RE → Nat → Option (Nat × Nat) → List (Nat × Option (Nat × Nat))
  | .eps, p, g => [(p, g)]
  | .lit s, p, g => if isPrefixB s (inp.drop p) then [(p + s.length, g)] else []
  | .cls f, p, g =>
    match inp.drop p with
    | c :: _ => if f c then [(p + 1, g)] else []
    | [] => []
  | .seq a b, p, g => (runs inp a p g).flatMap (fun r => runs inp b r.1 r.2)
  | .alt a b, p, g => runs inp a p g ++ runs inp b p g
  | .opt a, p, g => runs inp a p g ++ [(p, g)]
  | .cstar f, p, g =>
    (List.range (((inp.drop p).takeWhile f).length + 1)).reverse.map (fun k => (p + k, g))
  | .cplus f, p, g =>
    (List.range ((inp.drop p).takeWhile f).length).reverse.map (fun k => (p + k + 1, g))
  | .lazystar f, p, g =>
    (List.range (((inp.drop p).takeWhile f).length + 1)).map (fun k => (p + k, g))
  | .bound, p, g => if wordBoundary inp p then [(p, g)] else []
  | .grp a, p, g => (runs inp a p g).map (fun r => (r.1, some (p, r.1)))

/-- The slice of positions `[a, b)`. -/
def subSlice (inp : Text) (a b : Nat) : Text := (inp.take b).drop a

/-- Scan start positions left to right; at the first position where the regex
matches, return `(group 0, group 1)` of the highest-priority match. -/
def researchAux (re : RE) (inp : Text) : Nat → Nat → Option (Text × Option Text)
  | _, 0 => none
  | p, fuel + 1 =>
    match runs inp re p none with
    | r :: _ => some (subSlice inp p r.1, r.2.map (fun ab => subSlice inp ab.1 ab.2))
    | [] => researchAux re inp (p + 1) fuel

/-- `re.search(pattern, inp)`, returning `(group 0, group 1)` on success. -/
def research (re : RE) (inp : Text) : Option (Text × Option Text) :=
  researchAux re inp 0 (inp.length + 1)

/-- First pattern of an ordered list that matches (the source's
`for pattern in ...: if match: ... break` loops). -/
def firstSearch : List RE → Text → Option (Text × Option Text)
  | [], _ => none
  | p :: rest, inp =>
    match research p inp with
    | some r => some r
    | none => firstSearch rest inp

/-- Sequence a list of regexes. -/
def rseq (l : List RE) : RE := l.foldr RE.seq RE.eps

/-- Literal word regex. -/
def rlit (s : String) : RE := .lit (str s)

/-! ### The regex patterns of `ClinicalInsightBot.__init__` and the extractor bodies -/

/-- `(\d+\.?\d*)`: the decimal-number capture group. -/
def numG : RE := .grp (rseq [.cplus digitC, .opt (rlit "."), .cstar digitC])

/-- `self.patterns['age']`. -/
def agePatterns : List RE :=
  [ rseq [.grp (.cplus digitC), .opt (.cls dashSpaceC),
      .alt (rlit "year") (.alt (rlit "yr") (rlit "yo")), .opt (.cls spaceC), .opt (rlit "old")],
    rseq [rlit "age", .opt (rlit ":"), .cstar spaceC, .grp (.cplus digitC)],
    rseq [.grp (.cplus digitC), .opt (.cls spaceC), rlit "y", .opt (rlit "."), rlit "o", .opt (rlit ".")] ]

/-- `(?:kg|pounds?|lbs?)`. -/
def weightUnits : RE :=
  .alt (rlit "kg") (.alt (rseq [rlit "pound", .opt (rlit "s")]) (rseq [rlit "lb", .opt (rlit "s")]))

/-- `self.patterns['weight']`. -/
def weightPatterns : List RE :=
  [ rseq [rlit "weight", .opt (rlit ":"), .cstar spaceC, numG, .cstar spaceC, weightUnits],
    rseq [numG, .cstar spaceC, weightUnits] ]

/-- `(?:cm|inches?|in|ft)`. -/
def heightUnits1 : RE :=
  .alt (rlit "cm") (.alt (rseq [rlit "inche", .opt (rlit "s")]) (.alt (rlit "in") (rlit "ft")))

/-- `(?:cm|inches?|in)`. -/
def heightUnits2 : RE :=
  .alt (rlit "cm") (.alt (rseq [rlit "inche", .opt (rlit "s")]) (rlit "in"))

/-- `self.patterns['height']`. -/
def heightPatterns : List RE :=
  [ rseq [rlit "height", .opt (rlit ":"), .cstar spaceC, numG, .cstar spaceC, heightUnits1],
    rseq [numG, .cstar spaceC, heightUnits2] ]

/-- `self.patterns['gender']`. -/
def genderPatterns : List RE :=
  [ rseq [.alt (rlit "gender") (rlit "sex"), .opt (rlit ":"), .cstar spaceC,
      .grp (.alt (rlit "male") (.alt (rlit "female") (.alt (rlit "m") (rlit "f"))))],
    rseq [.bound, .grp (.alt (rlit "male") (rlit "female")), .bound] ]

/-- `self.patterns['asa']` (matched against the upper-cased text). -/
def asaPatterns : List RE :=
  [ rseq [rlit "ASA", .cstar spaceC,
      .opt (.alt (rlit "status") (.alt (rlit "class") (rlit "classification"))),
      .opt (rlit ":"), .cstar spaceC, .grp (.cplus asaClassC)],
    rseq [rlit "ASA", .cstar spaceC, .grp (.cplus asaClassC)],
    rseq [rlit "American Society", .lazystar dotC, .grp (.cplus asaClassC)] ]

/-- `self.patterns['allergies']`. -/
def allergyPatterns : List RE :=
  [ rseq [.alt (rseq [rlit "allergie", .opt (rlit "s")]) (.alt (rlit "NKDA") (rlit "NKA")),
      .opt (rlit ":"), .cstar spaceC, .grp (.cplus notDotNlC)],
    rseq [rlit "allergic to", .opt (rlit ":"), .cstar spaceC, .grp (.cplus notDotNlC)],
    rseq [rlit "allergy", .opt (rlit ":"), .cstar spaceC, .grp (.cplus notDotNlC)] ]

/-- `(?:hemoglobin|hgb|hb):?\s*(\d+\.?\d*)`. -/
def hgbRE : RE :=
  rseq [.alt (rlit "hemoglobin") (.alt (rlit "hgb") (rlit "hb")), .opt (rlit ":"), .cstar spaceC, numG]

/-- `(?:platelet|plt):?\s*(\d+)`. -/
def pltRE : RE :=
  rseq [.alt (rlit "platelet") (rlit "plt"), .opt (rlit ":"), .cstar spaceC, .grp (.cplus digitC)]

/-- `inr:?\s*(\d+\.?\d*)`. -/
def inrRE : RE := rseq [rlit "inr", .opt (rlit ":"), .cstar spaceC, numG]

/-- `(?:creatinine|cr):?\s*(\d+\.?\d*)`. -/
def crRE : RE :=
  rseq [.alt (rlit "creatinine") (rlit "cr"), .opt (rlit ":"), .cstar spaceC, numG]

/-- The `procedure_patterns` list of `extract_surgical_plan`. -/
def procedurePatterns : List RE :=
  [ rseq [.alt (rlit "procedure") (.alt (rlit "surgery") (rlit "operation")),
      .opt (rlit ":"), .cstar spaceC, .grp (.cplus notDotNlC)],
    rseq [rlit "scheduled for", .opt (rlit ":"), .cstar spaceC, .grp (.cplus notDotNlC)],
    rseq [rlit "undergoing", .opt (rlit ":"), .cstar spaceC, .grp (.cplus notDotNlC)] ]

/-- `(?:hours?|hrs?|minutes?|mins?)`. -/
def durationUnits : RE :=
  .alt (rseq [rlit "hour", .opt (rlit "s")])
    (.alt (rseq [rlit "hr", .opt (rlit "s")])
      (.alt (rseq [rlit "minute", .opt (rlit "s")]) (rseq [rlit "min", .opt (rlit "s")])))

/-- `(?:duration|time):?\s*(\d+\.?\d*)\s*(?:hours?|hrs?|minutes?|mins?)`. -/
def durationRE : RE :=
  rseq [.alt (rlit "duration") (rlit "time"), .opt (rlit ":"), .cstar spaceC, numG,
    .cstar spaceC, durationUnits]

/-- `mallampati:?\s*([1-4IV]+)`. -/
def mallampatiRE : RE :=
  rseq [rlit "mallampati", .opt (rlit ":"), .cstar spaceC, .grp (.cplus mallampatiC)]

/-- `mouth opening:?\s*(\d+\.?\d*)\s*(?:cm|fingerbreadths?)`. -/
def mouthRE : RE :=
  rseq [rlit "mouth opening", .opt (rlit ":"), .cstar spaceC, numG, .cstar spaceC,
    .alt (rlit "cm") (rseq [rlit "fingerbreadth", .opt (rlit "s")])]

/-! ### The keyword tables of `ClinicalInsightBot.__init__` -/

/-- `self.keywords['anticoagulants']`. -/
def anticoagulants_kw : List Text :=
  [str "warfarin", str "coumadin", str "heparin", str "rivaroxaban", str "xarelto",
   str "apixaban", str "eliquis", str "dabigatran", str "pradaxa", str "aspirin",
   str "plavix", str "clopidogrel"]

/-- `self.keywords['cardiac_conditions']`. -/
def cardiac_conditions_kw : List Text :=
  [str "hypertension", str "CAD", str "coronary artery disease", str "MI",
   str "myocardial infarction", str "CHF", str "heart failure", str "arrhythmia",
   str "atrial fibrillation", str "valve disease"]

/-- `self.keywords['pulmonary_conditions']`. -/
def pulmonary_conditions_kw : List Text :=
  [str "COPD", str "asthma", str "sleep apnea", str "OSA", str "pulmonary embolism",
   str "pneumonia", str "lung disease"]

/-- `self.keywords['renal_conditions']`. -/
def renal_conditions_kw : List Text :=
  [str "chronic kidney disease", str "CKD", str "renal failure", str "dialysis",
   str "kidney disease"]

/-- `self.keywords['diabetes']`. -/
def diabetes_kw : List Text :=
  [str "diabetes", str "DM", str "insulin", str "metformin", str "diabetic"]

/-- `self.keywords['surgical_positions']`. -/
def surgical_positions_kw : List Text :=
  [str "supine", str "prone", str "lateral", str "lithotomy", str "trendelenburg",
   str "reverse trendelenburg", str "sitting", str "beach chair"]

/-- The diabetes-medication term list inlined in `extract_medications`. -/
def diabetes_meds_list : List Text :=
  [str "insulin", str "metformin", str "glipizide", str "glyburide"]

/-- The `cardiac_meds` list inlined in `extract_medications`. -/
def cardiac_meds_list : List Text :=
  [str "beta blocker", str "ace inhibitor", str "lisinopril", str "metoprolol",
   str "atenolol", str "amlodipine"]

/-- The difficult-airway predictor terms inlined in `extract_airway_assessment`. -/
def difficult_airway_terms : List Text :=
  [str "difficult airway", str "difficult intubation", str "short neck",
   str "limited neck mobility"]

/-- Elevated-aspiration-risk terms in `assess_risks`. -/
def aspiration_high_terms : List Text :=
  [str "not npo", str "recent meal", str "full stomach", str "gastroparesis", str "gerd"]

/-- Standard-aspiration-risk terms in `assess_risks`. -/
def aspiration_std_terms : List Text := [str "npo", str "fasting"]

/-- High-severity cardiac terms in `assess_risks`. -/
def cardiac_high_terms : List Text :=
  [str "recent mi", str "unstable angina", str "severe aortic stenosis", str "decompensated chf"]

/-- Bleeding-risk terms in `assess_risks`. -/
def bleeding_terms : List Text :=
  [str "anticoagulant", str "bleeding disorder", str "thrombocytopenia"]

/-! ### The Insight Record schema (`ClinicalInsight.__init__`) -/

/-- The sentinel for a leaf with no evidence. -/
def notFound : Text := str "Not Found"

/-- `data['patient_info']`. -/
structure PatientInfo where
  age : Text
  weight : Text
  height : Text
  gender : Text
deriving DecidableEq, Repr

/-- `data['pre_operative']['medications']`. -/
structure Medications where
  anticoagulants : Text
  insulin : Text
  cardiac_meds : Text
  other_relevant : Text
deriving DecidableEq, Repr

/-- `data['pre_operative']['comorbidities']`. -/
structure Comorbidities where
  cardiac : Text
  pulmonary : Text
  renal : Text
  hepatic : Text
  neurologic : Text
  endocrine : Text
deriving DecidableEq, Repr

/-- `data['pre_operative']['airway_assessment']`. -/
structure AirwayAssessment where
  mallampati : Text
  mouth_opening : Text
  neck_mobility : Text
  thyromental_distance : Text
  dentition : Text
  predicted_difficulty : Text
deriving DecidableEq, Repr

/-- `data['pre_operative']['laboratory_values']`. -/
structure LaboratoryValues where
  hemoglobin : Text
  platelet_count : Text
  inr_pt_ptt : Text
  creatinine : Text
  glucose : Text
  electrolytes : Text
deriving DecidableEq, Repr

/-- `data['pre_operative']`. -/
structure PreOperative where
  asa_status : Text
  allergies : Text
  medications : Medications
  comorbidities : Comorbidities
  airway_assessment : AirwayAssessment
  laboratory_values : LaboratoryValues
  device_implants : Text
  npo_status : Text
deriving DecidableEq, Repr

/-- `data['surgical_plan']`. -/
structure SurgicalPlan where
  procedure : Text
  surgical_position : Text
  estimated_duration : Text
  surgeon : Text
  approach : Text
deriving DecidableEq, Repr

/-- `data['intra_operative']`. -/
structure IntraOperative where
  special_monitoring : Text
  vascular_access : Text
  blood_products : Text
  regional_anesthesia : Text
  temperature_management : Text
  fluid_management : Text
deriving DecidableEq, Repr

/-- `data['post_operative']`. -/
structure PostOperative where
  planned_disposition : Text
  pain_management : Text
  icu_monitoring : Text
  ventilator_weaning : Text
deriving DecidableEq, Repr

/-- `data['risk_assessment']`. -/
structure RiskAssessment where
  aspiration_risk : Text
  difficult_airway : Text
  cardiac_risk : Text
  bleeding_risk : Text
deriving DecidableEq, Repr

/-- The whole `ClinicalInsight.data` record (the attached metadata is kept
separately, see `Metadata`). -/
structure ClinicalInsight where
  patient_info : PatientInfo
  pre_operative : PreOperative
  surgical_plan : SurgicalPlan
  intra_operative : IntraOperative
  post_operative : PostOperative
  risk_assessment : RiskAssessment
deriving DecidableEq, Repr

/-- `data['metadata']` as attached by `process_emr_text`. -/
structure Metadata where
  processed_timestamp : Text
  version : Text
  extraction_confidence : Text
deriving DecidableEq, Repr

/-- The freshly-constructed record: every leaf at the sentinel. -/
def freshInsight : ClinicalInsight :=
  { patient_info := { age := notFound, weight := notFound, height := notFound, gender := notFound }
    pre_operative :=
      { asa_status := notFound
        allergies := notFound
        medications :=
          { anticoagulants := notFound, insulin := notFound, cardiac_meds := notFound,
            other_relevant := notFound }
        comorbidities :=
          { cardiac := notFound, pulmonary := notFound, renal := notFound, hepatic := notFound,
            neurologic := notFound, endocrine := notFound }
        airway_assessment :=
          { mallampati := notFound, mouth_opening := notFound, neck_mobility := notFound,
            thyromental_distance := notFound, dentition := notFound,
            predicted_difficulty := notFound }
        laboratory_values :=
          { hemoglobin := notFound, platelet_count := notFound, inr_pt_ptt := notFound,
            creatinine := notFound, glucose := notFound, electrolytes := notFound }
        device_implants := notFound
        npo_status := notFound }
    surgical_plan :=
      { procedure := notFound, surgical_position := notFound, estimated_duration := notFound,
        surgeon := notFound, approach := notFound }
    intra_operative :=
      { special_monitoring := notFound, vascular_access := notFound, blood_products := notFound,
        regional_anesthesia := notFound, temperature_management := notFound,
        fluid_management := notFound }
    post_operative :=
      { planned_disposition := notFound, pain_management := notFound, icu_monitoring := notFound,
        ventilator_weaning := notFound }
    risk_assessment :=
      { aspiration_risk := notFound, difficult_airway := notFound, cardiac_risk := notFound,
        bleeding_risk := notFound } }

/-! ### Field value functions: what each extractor would write, as a function
of the input text alone (`none` means "no match, keep the current value"). -/

/-- Age: first matching age pattern on the lower-cased text, `"<N> years"`. -/
def ageVal (t : Text) : Option Text :=
  (firstSearch agePatterns (lowerL t)).bind fun r => r.2.map (fun g => g ++ str " years")

/-- Weight: `match.group(0)` of the first matching weight pattern. -/
def weightVal (t : Text) : Option Text :=
  (firstSearch weightPatterns (lowerL t)).map (fun r => r.1)

/-- Height: `match.group(0)` of the first matching height pattern. -/
def heightVal (t : Text) : Option Text :=
  (firstSearch heightPatterns (lowerL t)).map (fun r => r.1)

/-- Gender: captured token mapped to `"Male"` for `male`/`m`, else `"Female"`. -/
def genderVal (t : Text) : Option Text :=
  (firstSearch genderPatterns (lowerL t)).bind fun r => r.2.map (fun g =>
    if lowerL g == str "male" || lowerL g == str "m" then str "Male" else str "Female")

/-- ASA status: first matching ASA pattern on the UPPER-cased text, `"ASA <class>"`.
Every ASA pattern contains the capture group, so the inner `map` never sees `none`. -/
def asaVal (t : Text) : Option Text :=
  (firstSearch asaPatterns (upperL t)).bind fun r => r.2.map (fun g => str "ASA " ++ g)

/-- The allergy pattern loop: a match whose stripped group is ≤2 characters
does not break the loop; later patterns are still tried. -/
def allergyLoop : List RE → Text → Option Text
  | [], _ => none
  | p :: rest, tl =>
    match research p tl with
    | some (_, some g) =>
      let a := pstrip g
      if 2 < a.length then some a else allergyLoop rest tl
    | _ => allergyLoop rest tl

/-- Allergies: the NKDA/NKA substring check has absolute priority; otherwise
the first pattern capture longer than 2 characters, stripped and title-cased. -/
def allergiesVal (t : Text) : Option Text :=
  let tl := lowerL t
  if isInfixB (str "nkda") tl || isInfixB (str "nka") tl then
    some (str "NKDA (No Known Drug Allergies)")
  else
    (allergyLoop allergyPatterns tl).map ptitle

/-- Shared shape of the medication keyword scans: collect every hit,
title-case, join with `", "`; no hits means no write. -/
def keywordJoinTitled (kws : List Text) (t : Text) : Option Text :=
  match kws.filter (fun k => isInfixB k (lowerL t)) with
  | [] => none
  | found => some (joinComma (found.map ptitle))

/-- Shared shape of the comorbidity keyword scans: collect every hit,
join raw (no title-casing), `", "`-separated. -/
def keywordJoinRaw (kws : List Text) (t : Text) : Option Text :=
  match kws.filter (fun k => isInfixB k (lowerL t)) with
  | [] => none
  | found => some (joinComma found)

/-- Anticoagulants found in the text. -/
def anticoagulantsVal (t : Text) : Option Text := keywordJoinTitled anticoagulants_kw t

/-- Insulin/diabetes medications found in the text. -/
def insulinVal (t : Text) : Option Text := keywordJoinTitled diabetes_meds_list t

/-- Cardiac medications found in the text. -/
def cardiacMedsVal (t : Text) : Option Text := keywordJoinTitled cardiac_meds_list t

/-- Cardiac comorbidities found in the text. -/
def cardiacComorbVal (t : Text) : Option Text := keywordJoinRaw cardiac_conditions_kw t

/-- Pulmonary comorbidities found in the text. -/
def pulmonaryComorbVal (t : Text) : Option Text := keywordJoinRaw pulmonary_conditions_kw t

/-- Renal comorbidities found in the text. -/
def renalComorbVal (t : Text) : Option Text := keywordJoinRaw renal_conditions_kw t

/-- Diabetes/endocrine terms found in the text. -/
def endocrineVal (t : Text) : Option Text := keywordJoinRaw diabetes_kw t

/-- Hemoglobin: `"<value> g/dL"`. -/
def hemoglobinVal (t : Text) : Option Text :=
  (research hgbRE (lowerL t)).bind fun r => r.2.map (fun g => g ++ str " g/dL")

/-- Platelet count: `"<value> K/uL"`. -/
def plateletVal (t : Text) : Option Text :=
  (research pltRE (lowerL t)).bind fun r => r.2.map (fun g => g ++ str " K/uL")

/-- INR: `"INR <value>"`. -/
def inrVal (t : Text) : Option Text :=
  (research inrRE (lowerL t)).bind fun r => r.2.map (fun g => str "INR " ++ g)

/-- Creatinine: `"<value> mg/dL"`. -/
def creatinineVal (t : Text) : Option Text :=
  (research crRE (lowerL t)).bind fun r => r.2.map (fun g => g ++ str " mg/dL")

/-- The procedure pattern loop: a stripped capture of ≤3 characters does not
break; later patterns are still tried. -/
def procedureLoop : List RE → Text → Option Text
  | [], _ => none
  | p :: rest, tl =>
    match research p tl with
    | some (_, some g) =>
      let a := pstrip g
      if 3 < a.length then some a else procedureLoop rest tl
    | _ => procedureLoop rest tl

/-- Procedure: first pattern capture longer than 3 characters, title-cased. -/
def procedureVal (t : Text) : Option Text :=
  (procedureLoop procedurePatterns (lowerL t)).map ptitle

/-- Surgical position: the FIRST position keyword present wins, title-cased. -/
def positionVal (t : Text) : Option Text :=
  (surgical_positions_kw.find? (fun k => isInfixB k (lowerL t))).map ptitle

/-- Estimated duration: `match.group(0)` of the duration regex. -/
def durationVal (t : Text) : Option Text :=
  (research durationRE (lowerL t)).map (fun r => r.1)

/-- Mallampati: `"Class <token>"`. -/
def mallampatiVal (t : Text) : Option Text :=
  (research mallampatiRE (lowerL t)).bind fun r => r.2.map (fun g => str "Class " ++ g)

/-- Mouth opening: `match.group(0)` of the mouth-opening regex. -/
def mouthVal (t : Text) : Option Text :=
  (research mouthRE (lowerL t)).map (fun r => r.1)

/-- Predicted airway difficulty: fixed flag when any predictor term is present. -/
def predictedDifficultyVal (t : Text) : Option Text :=
  if difficult_airway_terms.any (fun k => isInfixB k (lowerL t)) then
    some (str "Potentially difficult")
  else none

/-- Aspiration risk cascade: elevated terms, else fasting terms, else nothing. -/
def aspirationVal (t : Text) : Option Text :=
  let tl := lowerL t
  if aspiration_high_terms.any (fun k => isInfixB k tl) then some (str "Elevated")
  else if aspiration_std_terms.any (fun k => isInfixB k tl) then some (str "Standard")
  else none

/-- Cardiac risk cascade: high-severity terms, else the shared
cardiac-condition keyword list, else nothing. -/
def cardiacRiskVal (t : Text) : Option Text :=
  let tl := lowerL t
  if cardiac_high_terms.any (fun k => isInfixB k tl) then some (str "High")
  else if cardiac_conditions_kw.any (fun k => isInfixB k tl) then some (str "Moderate")
  else none

/-- Bleeding risk: its own three literal terms only. -/
def bleedingRiskVal (t : Text) : Option Text :=
  if bleeding_terms.any (fun k => isInfixB k (lowerL t)) then some (str "Elevated")
  else none

/-! ### The extractor methods and the `process_emr_text` pipeline -/

/-- `extract_patient_info`. -/
def extract_patient_info (t : Text) (d : ClinicalInsight) : ClinicalInsight :=
  { d with patient_info :=
    { age := (ageVal t).getD d.patient_info.age
      weight := (weightVal t).getD d.patient_info.weight
      height := (heightVal t).getD d.patient_info.height
      gender := (genderVal t).getD d.patient_info.gender } }

/-- `extract_asa_status`. -/
def extract_asa_status (t : Text) (d : ClinicalInsight) : ClinicalInsight :=
  { d with pre_operative :=
    { d.pre_operative with asa_status := (asaVal t).getD d.pre_operative.asa_status } }

/-- `extract_allergies`. -/
def extract_allergies (t : Text) (d : ClinicalInsight) : ClinicalInsight :=
  { d with pre_operative :=
    { d.pre_operative with allergies := (allergiesVal t).getD d.pre_operative.allergies } }

/-- `extract_medications`. -/
def extract_medications (t : Text) (d : ClinicalInsight) : ClinicalInsight :=
  { d with pre_operative :=
    { d.pre_operative with medications :=
      { anticoagulants := (anticoagulantsVal t).getD d.pre_operative.medications.anticoagulants
        insulin := (insulinVal t).getD d.pre_operative.medications.insulin
        cardiac_meds := (cardiacMedsVal t).getD d.pre_operative.medications.cardiac_meds
        other_relevant := d.pre_operative.medications.other_relevant } } }

/-- `extract_comorbidities`. -/
def extract_comorbidities (t : Text) (d : ClinicalInsight) : ClinicalInsight :=
  { d with pre_operative :=
    { d.pre_operative with comorbidities :=
      { cardiac := (cardiacComorbVal t).getD d.pre_operative.comorbidities.cardiac
        pulmonary := (pulmonaryComorbVal t).getD d.pre_operative.comorbidities.pulmonary
        renal := (renalComorbVal t).getD d.pre_operative.comorbidities.renal
        hepatic := d.pre_operative.comorbidities.hepatic
        neurologic := d.pre_operative.comorbidities.neurologic
        endocrine := (endocrineVal t).getD d.pre_operative.comorbidities.endocrine } } }

/-- `extract_lab_values`. -/
def extract_lab_values (t : Text) (d : ClinicalInsight) : ClinicalInsight :=
  { d with pre_operative :=
    { d.pre_operative with laboratory_values :=
      { hemoglobin := (hemoglobinVal t).getD d.pre_operative.laboratory_values.hemoglobin
        platelet_count := (plateletVal t).getD d.pre_operative.laboratory_values.platelet_count
        inr_pt_ptt := (inrVal t).getD d.pre_operative.laboratory_values.inr_pt_ptt
        creatinine := (creatinineVal t).getD d.pre_operative.laboratory_values.creatinine
        glucose := d.pre_operative.laboratory_values.glucose
        electrolytes := d.pre_operative.laboratory_values.electrolytes } } }

/-- `extract_surgical_plan`. -/
def extract_surgical_plan (t : Text) (d : ClinicalInsight) : ClinicalInsight :=
  { d with surgical_plan :=
    { procedure := (procedureVal t).getD d.surgical_plan.procedure
      surgical_position := (positionVal t).getD d.surgical_plan.surgical_position
      estimated_duration := (durationVal t).getD d.surgical_plan.estimated_duration
      surgeon := d.surgical_plan.surgeon
      approach := d.surgical_plan.approach } }

/-- `extract_airway_assessment`. -/
def extract_airway_assessment (t : Text) (d : ClinicalInsight) : ClinicalInsight :=
  { d with pre_operative :=
    { d.pre_operative with airway_assessment :=
      { mallampati := (mallampatiVal t).getD d.pre_operative.airway_assessment.mallampati
        mouth_opening := (mouthVal t).getD d.pre_operative.airway_assessment.mouth_opening
        neck_mobility := d.pre_operative.airway_assessment.neck_mobility
        thyromental_distance := d.pre_operative.airway_assessment.thyromental_distance
        dentition := d.pre_operative.airway_assessment.dentition
        predicted_difficulty :=
          (predictedDifficultyVal t).getD d.pre_operative.airway_assessment.predicted_difficulty } } }

/-- `assess_risks`. -/
def assess_risks (t : Text) (d : ClinicalInsight) : ClinicalInsight :=
  { d with risk_assessment :=
    { aspiration_risk := (aspirationVal t).getD d.risk_assessment.aspiration_risk
      difficult_airway := d.risk_assessment.difficult_airway
      cardiac_risk := (cardiacRiskVal t).getD d.risk_assessment.cardiac_risk
      bleeding_risk := (bleedingRiskVal t).getD d.risk_assessment.bleeding_risk } }

/-- The extraction pipeline of `process_emr_text`, threading the bot's shared
record through the nine sub-extractors in source order. -/
def processData (t : Text) (d : ClinicalInsight) : ClinicalInsight :=
  assess_risks t (extract_airway_assessment t (extract_surgical_plan t
    (extract_lab_values t (extract_comorbidities t (extract_medications t
      (extract_allergies t (extract_asa_status t (extract_patient_info t d))))))))

/-- `process_emr_text`: runs the pipeline on the bot's record and attaches
metadata; `now` stands for `datetime.now().isoformat()`. -/
def process_emr_text (now : Text) (d : ClinicalInsight) (emr_text : Text) :
    ClinicalInsight × Metadata :=
  (processData emr_text d,
   { processed_timestamp := now, version := str "1.0",
     extraction_confidence := str "Automated extraction - verify critical values" })

/-- A dynamically-typed input value, as `process_emr_text` receives it in
Python: either a text value or some non-text object. Calling the method with
a non-text input fails (the first `emr_text.lower()` call raises) before any
extraction or conversion happens; `process_emr_checked` models that dynamic
dispatch. -/
inductive PyVal where
  | ofStr (s : Text)
  | ofInt (n : Int)
  | ofNone
deriving DecidableEq, Repr

/-- `process_emr_text` under Python dynamic typing: text inputs run the
pipeline; non-text inputs fail with an `InvalidInputError`-class condition
(no implicit conversion is attempted). -/
def process_emr_checked (now : Text) (d : ClinicalInsight) :
    PyVal → Except String (ClinicalInsight × Metadata)
  | .ofStr s => .ok (process_emr_text now d s)
  | .ofInt _ => .error "InvalidInputError: non-text EMR input"
  | .ofNone => .error "InvalidInputError: non-text EMR input"

/-! ### Flattened view of the record and a normal form for the pipeline -/

/-- The flattened `(dotted key, leaf value)` view of a record, listing every
leaf of the §3 schema in order. -/
def leaves (d : ClinicalInsight) : List (String × Text) :=
  [ ("patient_info.age", d.patient_info.age),
    ("patient_info.weight", d.patient_info.weight),
    ("patient_info.height", d.patient_info.height),
    ("patient_info.gender", d.patient_info.gender),
    ("pre_operative.asa_status", d.pre_operative.asa_status),
    ("pre_operative.allergies", d.pre_operative.allergies),
    ("pre_operative.medications.anticoagulants", d.pre_operative.medications.anticoagulants),
    ("pre_operative.medications.insulin", d.pre_operative.medications.insulin),
    ("pre_operative.medications.cardiac_meds", d.pre_operative.medications.cardiac_meds),
    ("pre_operative.medications.other_relevant", d.pre_operative.medications.other_relevant),
    ("pre_operative.comorbidities.cardiac", d.pre_operative.comorbidities.cardiac),
    ("pre_operative.comorbidities.pulmonary", d.pre_operative.comorbidities.pulmonary),
    ("pre_operative.comorbidities.renal", d.pre_operative.comorbidities.renal),
    ("pre_operative.comorbidities.hepatic", d.pre_operative.comorbidities.hepatic),
    ("pre_operative.comorbidities.neurologic", d.pre_operative.comorbidities.neurologic),
    ("pre_operative.comorbidities.endocrine", d.pre_operative.comorbidities.endocrine),
    ("pre_operative.airway_assessment.mallampati", d.pre_operative.airway_assessment.mallampati),
    ("pre_operative.airway_assessment.mouth_opening",
      d.pre_operative.airway_assessment.mouth_opening),
    ("pre_operative.airway_assessment.neck_mobility",
      d.pre_operative.airway_assessment.neck_mobility),
    ("pre_operative.airway_assessment.thyromental_distance",
      d.pre_operative.airway_assessment.thyromental_distance),
    ("pre_operative.airway_assessment.dentition", d.pre_operative.airway_assessment.dentition),
    ("pre_operative.airway_assessment.predicted_difficulty",
      d.pre_operative.airway_assessment.predicted_difficulty),
    ("pre_operative.laboratory_values.hemoglobin", d.pre_operative.laboratory_values.hemoglobin),
    ("pre_operative.laboratory_values.platelet_count",
      d.pre_operative.laboratory_values.platelet_count),
    ("pre_operative.laboratory_values.inr_pt_ptt", d.pre_operative.laboratory_values.inr_pt_ptt),
    ("pre_operative.laboratory_values.creatinine", d.pre_operative.laboratory_values.creatinine),
    ("pre_operative.laboratory_values.glucose", d.pre_operative.laboratory_values.glucose),
    ("pre_operative.laboratory_values.electrolytes",
      d.pre_operative.laboratory_values.electrolytes),
    ("pre_operative.device_implants", d.pre_operative.device_implants),
    ("pre_operative.npo_status", d.pre_operative.npo_status),
    ("surgical_plan.procedure", d.surgical_plan.procedure),
    ("surgical_plan.surgical_position", d.surgical_plan.surgical_position),
    ("surgical_plan.estimated_duration", d.surgical_plan.estimated_duration),
    ("surgical_plan.surgeon", d.surgical_plan.surgeon),
    ("surgical_plan.approach", d.surgical_plan.approach),
    ("intra_operative.special_monitoring", d.intra_operative.special_monitoring),
    ("intra_operative.vascular_access", d.intra_operative.vascular_access),
    ("intra_operative.blood_products", d.intra_operative.blood_products),
    ("intra_operative.regional_anesthesia", d.intra_operative.regional_anesthesia),
    ("intra_operative.temperature_management", d.intra_operative.temperature_management),
    ("intra_operative.fluid_management", d.intra_operative.fluid_management),
    ("post_operative.planned_disposition", d.post_operative.planned_disposition),
    ("post_operative.pain_management", d.post_operative.pain_management),
    ("post_operative.icu_monitoring", d.post_operative.icu_monitoring),
    ("post_operative.ventilator_weaning", d.post_operative.ventilator_weaning),
    ("risk_assessment.aspiration_risk", d.risk_assessment.aspiration_risk),
    ("risk_assessment.difficult_airway", d.risk_assessment.difficult_airway),
    ("risk_assessment.cardiac_risk", d.risk_assessment.cardiac_risk),
    ("risk_assessment.bleeding_risk", d.risk_assessment.bleeding_risk) ]

/-- Every dotted leaf key of the §3 schema, in `leaves` order. -/
def schemaKeys : List String := (leaves freshInsight).map Prod.fst

/-- Normal form of the pipeline: every leaf is its own text-only value
function applied via `Option.getD` to the incoming leaf. Definitionally equal
to `processData` (see `processData_eq`). -/
def processNF (t : Text) (d : ClinicalInsight) : ClinicalInsight :=
  { patient_info :=
      { age := (ageVal t).getD d.patient_info.age
        weight := (weightVal t).getD d.patient_info.weight
        height := (heightVal t).getD d.patient_info.height
        gender := (genderVal t).getD d.patient_info.gender }
    pre_operative :=
      { asa_status := (asaVal t).getD d.pre_operative.asa_status
        allergies := (allergiesVal t).getD d.pre_operative.allergies
        medications :=
          { anticoagulants := (anticoagulantsVal t).getD d.pre_operative.medications.anticoagulants
            insulin := (insulinVal t).getD d.pre_operative.medications.insulin
            cardiac_meds := (cardiacMedsVal t).getD d.pre_operative.medications.cardiac_meds
            other_relevant := d.pre_operative.medications.other_relevant }
        comorbidities :=
          { cardiac := (cardiacComorbVal t).getD d.pre_operative.comorbidities.cardiac
            pulmonary := (pulmonaryComorbVal t).getD d.pre_operative.comorbidities.pulmonary
            renal := (renalComorbVal t).getD d.pre_operative.comorbidities.renal
            hepatic := d.pre_operative.comorbidities.hepatic
            neurologic := d.pre_operative.comorbidities.neurologic
            endocrine := (endocrineVal t).getD d.pre_operative.comorbidities.endocrine }
        airway_assessment :=
          { mallampati := (mallampatiVal t).getD d.pre_operative.airway_assessment.mallampati
            mouth_opening := (mouthVal t).getD d.pre_operative.airway_assessment.mouth_opening
            neck_mobility := d.pre_operative.airway_assessment.neck_mobility
            thyromental_distance := d.pre_operative.airway_assessment.thyromental_distance
            dentition := d.pre_operative.airway_assessment.dentition
            predicted_difficulty :=
              (predictedDifficultyVal t).getD d.pre_operative.airway_assessment.predicted_difficulty }
        laboratory_values :=
          { hemoglobin := (hemoglobinVal t).getD d.pre_operative.laboratory_values.hemoglobin
            platelet_count := (plateletVal t).getD d.pre_operative.laboratory_values.platelet_count
            inr_pt_ptt := (inrVal t).getD d.pre_operative.laboratory_values.inr_pt_ptt
            creatinine := (creatinineVal t).getD d.pre_operative.laboratory_values.creatinine
            glucose := d.pre_operative.laboratory_values.glucose
            electrolytes := d.pre_operative.laboratory_values.electrolytes }
        device_implants := d.pre_operative.device_implants
        npo_status := d.pre_operative.npo_status }
    surgical_plan :=
      { procedure := (procedureVal t).getD d.surgical_plan.procedure
        surgical_position := (positionVal t).getD d.surgical_plan.surgical_position
        estimated_duration := (durationVal t).getD d.surgical_plan.estimated_duration
        surgeon := d.surgical_plan.surgeon
        approach := d.surgical_plan.approach }
    intra_operative := d.intra_operative
    post_operative := d.post_operative
    risk_assessment :=
      { aspiration_risk := (aspirationVal t).getD d.risk_assessment.aspiration_risk
        difficult_airway := d.risk_assessment.difficult_airway
        cardiac_risk := (cardiacRiskVal t).getD d.risk_assessment.cardiac_risk
        bleeding_risk := (bleedingRiskVal t).getD d.risk_assessment.bleeding_risk } }

/-- True when none of the `cardiac_conditions` keyword strings occurs as a
substring of the given text. -/
def noCardiacKeywordIn (t : Text) : Bool :=
  cardiac_conditions_kw.all (fun k => !(isInfixB k t))

/-- True when none of the high-severity cardiac terms of `assess_risks`
occurs as a substring of the given text. -/
def noHighCardiacTermIn (t : Text) : Bool :=
  cardiac_high_terms.all (fun k => !(isInfixB k t))

/-- The keyword-table entries written with uppercase letters. -/
def upperAcronyms : List Text :=
  [str "CAD", str "MI", str "CHF", str "COPD", str "OSA", str "CKD", str "DM"]


/-- The per-leaf value functions, aligned with the `leaves` order; `none`
entries are leaves no extractor ever writes. -/
def leafVals (t : Text) : List (Option Text) :=
  [ ageVal t, weightVal t, heightVal t, genderVal t,
    asaVal t, allergiesVal t,
    anticoagulantsVal t, insulinVal t, cardiacMedsVal t, none,
    cardiacComorbVal t, pulmonaryComorbVal t, renalComorbVal t, none, none, endocrineVal t,
    mallampatiVal t, mouthVal t, none, none, none, predictedDifficultyVal t,
    hemoglobinVal t, plateletVal t, inrVal t, creatinineVal t, none, none,
    none, none,
    procedureVal t, positionVal t, durationVal t, none, none,
    none, none, none, none, none, none,
    none, none, none, none,
    aspirationVal t, none, cardiacRiskVal t, bleedingRiskVal t ]

/-! ### Helper lemmas -/

/-- The sequential pipeline is definitionally the per-leaf normal form. -/
theorem processData_eq (t : Text) (d : ClinicalInsight) : processData t d = processNF t d := rfl

/-- Overwrite-or-keep updates are idempotent. -/
theorem getD_idem (o : Option Text) (c : Text) : o.getD (o.getD c) = o.getD c := by
  cases o <;> rfl

/-- A Bool prefix is a member-wise subset. -/
theorem isPrefixB_subset : ∀ {n h : Text}, isPrefixB n h = true → ∀ c ∈ n, c ∈ h := by
  intro n
  induction n with
  | nil => intro h _ c hc; simp at hc
  | cons a s ih =>
    intro h hp c hc
    cases h with
    | nil => simp [isPrefixB] at hp
    | cons b t =>
      simp only [isPrefixB, Bool.and_eq_true, beq_iff_eq] at hp
      rcases List.mem_cons.mp hc with h1 | h1
      · exact List.mem_cons.mpr (Or.inl (h1.trans hp.1))
      · exact List.mem_cons.mpr (Or.inr (ih hp.2 c h1))

/-- A Bool substring is a member-wise subset. -/
theorem isInfixB_subset : ∀ {h n : Text}, isInfixB n h = true → ∀ c ∈ n, c ∈ h := by
  intro h
  induction h with
  | nil =>
    intro n hn c hc
    simp only [isInfixB, List.isEmpty_iff] at hn
    subst hn; simp at hc
  | cons b t ih =>
    intro n hn c hc
    simp only [isInfixB, Bool.or_eq_true] at hn
    rcases hn with h1 | h1
    · exact isPrefixB_subset h1 c hc
    · exact List.mem_cons.mpr (Or.inr (ih h1 c hc))

/-- A needle containing a character absent from the hay is not a substring. -/
theorem isInfixB_eq_false_of_missing {n h : Text} {c : Nat} (hc : c ∈ n) (hnc : c ∉ h) :
    isInfixB n h = false := by
  cases hb : isInfixB n h with
  | false => rfl
  | true => exact absurd (isInfixB_subset hb c hc) hnc

/-- Prefixes are preserved by mapping a function over both texts. -/
theorem isPrefixB_map (f : Nat → Nat) :
    ∀ {n h : Text}, isPrefixB n h = true → isPrefixB (n.map f) (h.map f) = true := by
  intro n
  induction n with
  | nil => intro h _; simp [isPrefixB]
  | cons a s ih =>
    intro h hp
    cases h with
    | nil => simp [isPrefixB] at hp
    | cons b t =>
      simp only [isPrefixB, Bool.and_eq_true, beq_iff_eq] at hp
      simp only [List.map_cons, isPrefixB, Bool.and_eq_true, beq_iff_eq]
      exact ⟨congrArg f hp.1, ih hp.2⟩

/-- Substrings are preserved by mapping a function over both texts. -/
theorem isInfixB_map (f : Nat → Nat) :
    ∀ {h n : Text}, isInfixB n h = true → isInfixB (n.map f) (h.map f) = true := by
  intro h
  induction h with
  | nil =>
    intro n hn
    simp only [isInfixB, List.isEmpty_iff] at hn
    subst hn; simp [isInfixB]
  | cons b t ih =>
    intro n hn
    simp only [isInfixB, Bool.or_eq_true] at hn
    simp only [List.map_cons, isInfixB, Bool.or_eq_true]
    rcases hn with h1 | h1
    · exact Or.inl (by simpa using isPrefixB_map f h1)
    · exact Or.inr (ih h1)

/-- Lower-casing a character never yields an ASCII uppercase letter. -/
theorem isUpperCode_lowerCode (n : Nat) : isUpperCode (lowerCode n) = false := by
  unfold lowerCode
  split
  · rename_i hu
    simp only [isUpperCode, Bool.and_eq_true, decide_eq_true_eq] at hu ⊢
    simp only [Bool.and_eq_false_iff, decide_eq_false_iff_not]
    omega
  · rename_i hu
    simpa using hu

/-- No character of a lower-cased text is an ASCII uppercase letter. -/
theorem mem_lowerL_not_upper {t : Text} {c : Nat} (hc : c ∈ lowerL t) :
    isUpperCode c = false := by
  simp only [lowerL, List.mem_map] at hc
  obtain ⟨a, _, rfl⟩ := hc
  exact isUpperCode_lowerCode a

/-- A needle starting with an ASCII uppercase letter never occurs in
lower-cased text. -/
theorem upper_headed_not_infix_lower {c : Nat} (rest : Text) (t : Text)
    (hc : isUpperCode c = true) : isInfixB (c :: rest) (lowerL t) = false :=
  isInfixB_eq_false_of_missing (List.mem_cons_self c rest)
    (fun hmem => by rw [mem_lowerL_not_upper hmem] at hc; exact Bool.false_ne_true hc)

/-- Characters of a comma-join come from the separator or from some member. -/
theorem mem_joinComma {L : List Text} {c : Nat} (hc : c ∈ joinComma L) :
    c = 44 ∨ c = 32 ∨ ∃ l ∈ L, c ∈ l := by
  induction L with
  | nil => simp [joinComma] at hc
  | cons x xs ih =>
    cases xs with
    | nil =>
      simp only [joinComma] at hc
      exact Or.inr (Or.inr ⟨x, List.mem_cons_self x [], hc⟩)
    | cons y ys =>
      simp only [joinComma, List.append_assoc, List.mem_append] at hc
      rcases hc with h1 | h2 | h2
      · exact Or.inr (Or.inr ⟨x, List.mem_cons_self x (y :: ys), h1⟩)
      · have hsep : str ", " = [44, 32] := rfl
        rw [hsep] at h2
        rcases List.mem_cons.mp h2 with h3 | h3
        · exact Or.inl h3
        · exact Or.inr (Or.inl (by simpa using h3))
      · rcases ih h2 with h3 | h3 | ⟨l, hl, hcl⟩
        · exact Or.inl h3
        · exact Or.inr (Or.inl h3)
        · exact Or.inr (Or.inr ⟨l, List.mem_cons.mpr (Or.inr hl), hcl⟩)

/-! ### Claim theorems -/

/-- Claim C1: every output record contains every schema key of the Insight
Record, for every input text including the empty string; on input where
nothing matches (in particular the empty string) every leaf is the sentinel
`"Not Found"`; and the metadata group (timestamp, version, confidence note)
is always attached. -/
theorem C1_schema_complete_and_empty_sentinels :
    (∀ t : Text, (leaves (processData t freshInsight)).map Prod.fst = schemaKeys) ∧
    (∀ t : Text, (leaves (processData t freshInsight)).map Prod.snd =
      (leafVals t).map (fun o => o.getD notFound)) ∧
    leaves (processData (str "") freshInsight) = schemaKeys.map (fun k => (k, notFound)) ∧
    (∀ (now t : Text) (d : ClinicalInsight),
      (process_emr_text now d t).2 =
        { processed_timestamp := now, version := str "1.0",
          extraction_confidence := str "Automated extraction - verify critical values" }) :=
  ⟨fun _ => rfl, fun _ => rfl, by decide, fun _ _ _ => rfl⟩

/-- Claim C2 counterexample: the bot's record is created once in `__init__`
and shared across calls, so after processing `"nkda"` a second call on the
empty text still returns the allergies value extracted from the first text,
while a freshly constructed bot returns the sentinel for the same text. -/
theorem C2_state_shared_counterexample :
    (processData (str "") (processData (str "nkda") freshInsight)).pre_operative.allergies ≠
      (processData (str "") freshInsight).pre_operative.allergies := by decide

/-- An overwrite-on-match/keep-otherwise leaf update either agrees with the
update applied to any other incoming value, or keeps the incoming value. -/
theorem getD_agree_or_carry (o : Option Text) (c e : Text) :
    o.getD c = o.getD e ∨ o.getD c = c := by
  cases o <;> simp

/-- Claim C2 (amended): the record is instantiated once per bot, not per
call, and state persists across calls; the record returned for a second text
equals the second text's extraction applied to the record left by the first,
so every leaf of the result either agrees with the fresh-bot extraction of
that text (when the text matches the leaf) or carries the prior record's
value (when it does not) — stated below for each of the 49 schema leaves. -/
theorem C2_amended_leaf_survival :
    ∀ (d : ClinicalInsight) (b : Text),
      ((processData b d).patient_info.age =
          (processData b freshInsight).patient_info.age ∨
        (processData b d).patient_info.age = d.patient_info.age) ∧
      ((processData b d).patient_info.weight =
          (processData b freshInsight).patient_info.weight ∨
        (processData b d).patient_info.weight = d.patient_info.weight) ∧
      ((processData b d).patient_info.height =
          (processData b freshInsight).patient_info.height ∨
        (processData b d).patient_info.height = d.patient_info.height) ∧
      ((processData b d).patient_info.gender =
          (processData b freshInsight).patient_info.gender ∨
        (processData b d).patient_info.gender = d.patient_info.gender) ∧
      ((processData b d).pre_operative.asa_status =
          (processData b freshInsight).pre_operative.asa_status ∨
        (processData b d).pre_operative.asa_status = d.pre_operative.asa_status) ∧
      ((processData b d).pre_operative.allergies =
          (processData b freshInsight).pre_operative.allergies ∨
        (processData b d).pre_operative.allergies = d.pre_operative.allergies) ∧
      ((processData b d).pre_operative.medications.anticoagulants =
          (processData b freshInsight).pre_operative.medications.anticoagulants ∨
        (processData b d).pre_operative.medications.anticoagulants = d.pre_operative.medications.anticoagulants) ∧
      ((processData b d).pre_operative.medications.insulin =
          (processData b freshInsight).pre_operative.medications.insulin ∨
        (processData b d).pre_operative.medications.insulin = d.pre_operative.medications.insulin) ∧
      ((processData b d).pre_operative.medications.cardiac_meds =
          (processData b freshInsight).pre_operative.medications.cardiac_meds ∨
        (processData b d).pre_operative.medications.cardiac_meds = d.pre_operative.medications.cardiac_meds) ∧
      ((processData b d).pre_operative.medications.other_relevant =
          (processData b freshInsight).pre_operative.medications.other_relevant ∨
        (processData b d).pre_operative.medications.other_relevant = d.pre_operative.medications.other_relevant) ∧
      ((processData b d).pre_operative.comorbidities.cardiac =
          (processData b freshInsight).pre_operative.comorbidities.cardiac ∨
        (processData b d).pre_operative.comorbidities.cardiac = d.pre_operative.comorbidities.cardiac) ∧
      ((processData b d).pre_operative.comorbidities.pulmonary =
          (processData b freshInsight).pre_operative.comorbidities.pulmonary ∨
        (processData b d).pre_operative.comorbidities.pulmonary = d.pre_operative.comorbidities.pulmonary) ∧
      ((processData b d).pre_operative.comorbidities.renal =
          (processData b freshInsight).pre_operative.comorbidities.renal ∨
        (processData b d).pre_operative.comorbidities.renal = d.pre_operative.comorbidities.renal) ∧
      ((processData b d).pre_operative.comorbidities.hepatic =
          (processData b freshInsight).pre_operative.comorbidities.hepatic ∨
        (processData b d).pre_operative.comorbidities.hepatic = d.pre_operative.comorbidities.hepatic) ∧
      ((processData b d).pre_operative.comorbidities.neurologic =
          (processData b freshInsight).pre_operative.comorbidities.neurologic ∨
        (processData b d).pre_operative.comorbidities.neurologic = d.pre_operative.comorbidities.neurologic) ∧
      ((processData b d).pre_operative.comorbidities.endocrine =
          (processData b freshInsight).pre_operative.comorbidities.endocrine ∨
        (processData b d).pre_operative.comorbidities.endocrine = d.pre_operative.comorbidities.endocrine) ∧
      ((processData b d).pre_operative.airway_assessment.mallampati =
          (processData b freshInsight).pre_operative.airway_assessment.mallampati ∨
        (processData b d).pre_operative.airway_assessment.mallampati = d.pre_operative.airway_assessment.mallampati) ∧
      ((processData b d).pre_operative.airway_assessment.mouth_opening =
          (processData b freshInsight).pre_operative.airway_assessment.mouth_opening ∨
        (processData b d).pre_operative.airway_assessment.mouth_opening = d.pre_operative.airway_assessment.mouth_opening) ∧
      ((processData b d).pre_operative.airway_assessment.neck_mobility =
          (processData b freshInsight).pre_operative.airway_assessment.neck_mobility ∨
        (processData b d).pre_operative.airway_assessment.neck_mobility = d.pre_operative.airway_assessment.neck_mobility) ∧
      ((processData b d).pre_operative.airway_assessment.thyromental_distance =
          (processData b freshInsight).pre_operative.airway_assessment.thyromental_distance ∨
        (processData b d).pre_operative.airway_assessment.thyromental_distance = d.pre_operative.airway_assessment.thyromental_distance) ∧
      ((processData b d).pre_operative.airway_assessment.dentition =
          (processData b freshInsight).pre_operative.airway_assessment.dentition ∨
        (processData b d).pre_operative.airway_assessment.dentition = d.pre_operative.airway_assessment.dentition) ∧
      ((processData b d).pre_operative.airway_assessment.predicted_difficulty =
          (processData b freshInsight).pre_operative.airway_assessment.predicted_difficulty ∨
        (processData b d).pre_operative.airway_assessment.predicted_difficulty = d.pre_operative.airway_assessment.predicted_difficulty) ∧
      ((processData b d).pre_operative.laboratory_values.hemoglobin =
          (processData b freshInsight).pre_operative.laboratory_values.hemoglobin ∨
        (processData b d).pre_operative.laboratory_values.hemoglobin = d.pre_operative.laboratory_values.hemoglobin) ∧
      ((processData b d).pre_operative.laboratory_values.platelet_count =
          (processData b freshInsight).pre_operative.laboratory_values.platelet_count ∨
        (processData b d).pre_operative.laboratory_values.platelet_count = d.pre_operative.laboratory_values.platelet_count) ∧
      ((processData b d).pre_operative.laboratory_values.inr_pt_ptt =
          (processData b freshInsight).pre_operative.laboratory_values.inr_pt_ptt ∨
        (processData b d).pre_operative.laboratory_values.inr_pt_ptt = d.pre_operative.laboratory_values.inr_pt_ptt) ∧
      ((processData b d).pre_operative.laboratory_values.creatinine =
          (processData b freshInsight).pre_operative.laboratory_values.creatinine ∨
        (processData b d).pre_operative.laboratory_values.creatinine = d.pre_operative.laboratory_values.creatinine) ∧
      ((processData b d).pre_operative.laboratory_values.glucose =
          (processData b freshInsight).pre_operative.laboratory_values.glucose ∨
        (processData b d).pre_operative.laboratory_values.glucose = d.pre_operative.laboratory_values.glucose) ∧
      ((processData b d).pre_operative.laboratory_values.electrolytes =
          (processData b freshInsight).pre_operative.laboratory_values.electrolytes ∨
        (processData b d).pre_operative.laboratory_values.electrolytes = d.pre_operative.laboratory_values.electrolytes) ∧
      ((processData b d).pre_operative.device_implants =
          (processData b freshInsight).pre_operative.device_implants ∨
        (processData b d).pre_operative.device_implants = d.pre_operative.device_implants) ∧
      ((processData b d).pre_operative.npo_status =
          (processData b freshInsight).pre_operative.npo_status ∨
        (processData b d).pre_operative.npo_status = d.pre_operative.npo_status) ∧
      ((processData b d).surgical_plan.procedure =
          (processData b freshInsight).surgical_plan.procedure ∨
        (processData b d).surgical_plan.procedure = d.surgical_plan.procedure) ∧
      ((processData b d).surgical_plan.surgical_position =
          (processData b freshInsight).surgical_plan.surgical_position ∨
        (processData b d).surgical_plan.surgical_position = d.surgical_plan.surgical_position) ∧
      ((processData b d).surgical_plan.estimated_duration =
          (processData b freshInsight).surgical_plan.estimated_duration ∨
        (processData b d).surgical_plan.estimated_duration = d.surgical_plan.estimated_duration) ∧
      ((processData b d).surgical_plan.surgeon =
          (processData b freshInsight).surgical_plan.surgeon ∨
        (processData b d).surgical_plan.surgeon = d.surgical_plan.surgeon) ∧
      ((processData b d).surgical_plan.approach =
          (processData b freshInsight).surgical_plan.approach ∨
        (processData b d).surgical_plan.approach = d.surgical_plan.approach) ∧
      ((processData b d).intra_operative.special_monitoring =
          (processData b freshInsight).intra_operative.special_monitoring ∨
        (processData b d).intra_operative.special_monitoring = d.intra_operative.special_monitoring) ∧
      ((processData b d).intra_operative.vascular_access =
          (processData b freshInsight).intra_operative.vascular_access ∨
        (processData b d).intra_operative.vascular_access = d.intra_operative.vascular_access) ∧
      ((processData b d).intra_operative.blood_products =
          (processData b freshInsight).intra_operative.blood_products ∨
        (processData b d).intra_operative.blood_products = d.intra_operative.blood_products) ∧
      ((processData b d).intra_operative.regional_anesthesia =
          (processData b freshInsight).intra_operative.regional_anesthesia ∨
        (processData b d).intra_operative.regional_anesthesia = d.intra_operative.regional_anesthesia) ∧
      ((processData b d).intra_operative.temperature_management =
          (processData b freshInsight).intra_operative.temperature_management ∨
        (processData b d).intra_operative.temperature_management = d.intra_operative.temperature_management) ∧
      ((processData b d).intra_operative.fluid_management =
          (processData b freshInsight).intra_operative.fluid_management ∨
        (processData b d).intra_operative.fluid_management = d.intra_operative.fluid_management) ∧
      ((processData b d).post_operative.planned_disposition =
          (processData b freshInsight).post_operative.planned_disposition ∨
        (processData b d).post_operative.planned_disposition = d.post_operative.planned_disposition) ∧
      ((processData b d).post_operative.pain_management =
          (processData b freshInsight).post_operative.pain_management ∨
        (processData b d).post_operative.pain_management = d.post_operative.pain_management) ∧
      ((processData b d).post_operative.icu_monitoring =
          (processData b freshInsight).post_operative.icu_monitoring ∨
        (processData b d).post_operative.icu_monitoring = d.post_operative.icu_monitoring) ∧
      ((processData b d).post_operative.ventilator_weaning =
          (processData b freshInsight).post_operative.ventilator_weaning ∨
        (processData b d).post_operative.ventilator_weaning = d.post_operative.ventilator_weaning) ∧
      ((processData b d).risk_assessment.aspiration_risk =
          (processData b freshInsight).risk_assessment.aspiration_risk ∨
        (processData b d).risk_assessment.aspiration_risk = d.risk_assessment.aspiration_risk) ∧
      ((processData b d).risk_assessment.difficult_airway =
          (processData b freshInsight).risk_assessment.difficult_airway ∨
        (processData b d).risk_assessment.difficult_airway = d.risk_assessment.difficult_airway) ∧
      ((processData b d).risk_assessment.cardiac_risk =
          (processData b freshInsight).risk_assessment.cardiac_risk ∨
        (processData b d).risk_assessment.cardiac_risk = d.risk_assessment.cardiac_risk) ∧
      ((processData b d).risk_assessment.bleeding_risk =
          (processData b freshInsight).risk_assessment.bleeding_risk ∨
        (processData b d).risk_assessment.bleeding_risk = d.risk_assessment.bleeding_risk) := by
  intro d b
  simp only [processData_eq]
  dsimp only [processNF]
  refine ⟨?_, ?_, ?_, ?_, ?_, ?_, ?_, ?_, ?_, ?_, ?_, ?_, ?_, ?_, ?_, ?_, ?_, ?_, ?_, ?_, ?_, ?_, ?_, ?_, ?_, ?_, ?_, ?_, ?_, ?_, ?_, ?_, ?_, ?_, ?_, ?_, ?_, ?_, ?_, ?_, ?_, ?_, ?_, ?_, ?_, ?_, ?_, ?_, ?_⟩
  all_goals first
    | exact getD_agree_or_carry _ _ _
    | exact Or.inr rfl

/-- Claim C3, code behaviour at the spec's own examples: `"ASA III"` is
extracted as `"ASA III"`, but `"asa class 2"` yields the sentinel — the
pattern alternatives `status|class|classification` (and `American Society`)
are lower-case literals matched against the upper-cased text, so the
label-qualified and long forms can never match. -/
theorem C3_asa_code_behaviour :
    (processData (str "ASA III") freshInsight).pre_operative.asa_status = str "ASA III" ∧
    (processData (str "asa class 2") freshInsight).pre_operative.asa_status = notFound := by
  decide

/-- Claim C4: an `nkda` or `nka` substring of the lower-cased text forces the
allergies leaf to the fixed NKDA string, whatever the rest of the text and
whatever record state the call starts from. -/
theorem C4_nkda_absolute_priority (t : Text) (d : ClinicalInsight)
    (h : isInfixB (str "nkda") (lowerL t) = true ∨ isInfixB (str "nka") (lowerL t) = true) :
    (processData t d).pre_operative.allergies = str "NKDA (No Known Drug Allergies)" := by
  simp only [processData_eq]
  show (allergiesVal t).getD d.pre_operative.allergies = str "NKDA (No Known Drug Allergies)"
  have hcond : (isInfixB (str "nkda") (lowerL t) || isInfixB (str "nka") (lowerL t)) = true := by
    rcases h with h | h <;> simp [h]
  simp [allergiesVal, hcond]

/-- Claim C4 witness: a text with both an allergy-like phrase and an NKDA
token still reports the fixed NKDA string. -/
theorem C4_nkda_absolute_priority_witness :
    (processData (str "Allergies: penicillin. NKDA") freshInsight).pre_operative.allergies =
      str "NKDA (No Known Drug Allergies)" :=
  C4_nkda_absolute_priority (str "Allergies: penicillin. NKDA") freshInsight (Or.inl (by decide))

/-- Claim C5: a text containing `"recent MI"` gets cardiac risk `"High"`,
whatever other cardiac keywords are present — the high-severity tier is
checked first and wins. -/
theorem C5_recent_mi_high (t : Text) (d : ClinicalInsight)
    (h : isInfixB (str "recent MI") t = true) :
    (processData t d).risk_assessment.cardiac_risk = str "High" := by
  have hlow : isInfixB (str "recent mi") (lowerL t) = true := by
    have h2 := isInfixB_map lowerCode h
    have e : (str "recent MI").map lowerCode = str "recent mi" := by decide
    rw [e] at h2
    exact h2
  have hany : cardiac_high_terms.any (fun k => isInfixB k (lowerL t)) = true := by
    simp only [cardiac_high_terms, List.any_cons, Bool.or_eq_true]
    exact Or.inl hlow
  have hval : cardiacRiskVal t = some (str "High") := by
    simp [cardiacRiskVal, hany]
  simp only [processData_eq]
  show (cardiacRiskVal t).getD d.risk_assessment.cardiac_risk = str "High"
  rw [hval]
  rfl

/-- Claim C5 witness: `"recent MI and hypertension"` is assessed `"High"`
even though the moderate-tier keyword `hypertension` is also present. -/
theorem C5_recent_mi_high_witness :
    (processData (str "recent MI and hypertension") freshInsight).risk_assessment.cardiac_risk =
      str "High" :=
  C5_recent_mi_high (str "recent MI and hypertension") freshInsight (by decide)

/-- Claim C6 counterexample: `"unstable angina"` contains none of the
`cardiac_conditions` keywords (neither verbatim nor after lower-casing), yet
`cardiac_risk` is assigned `"High"` by the high-severity tier, so it does not
stay at the sentinel as the claim requires. -/
theorem C6_high_tier_counterexample :
    noCardiacKeywordIn (str "unstable angina") = true ∧
    noCardiacKeywordIn (lowerL (str "unstable angina")) = true ∧
    (processData (str "unstable angina") freshInsight).pre_operative.comorbidities.cardiac =
      notFound ∧
    (processData (str "unstable angina") freshInsight).risk_assessment.cardiac_risk =
      str "High" ∧
    str "High" ≠ notFound := by decide

/-- Claim C6 (amended): a text whose lower-casing contains none of the
`cardiac_conditions` keywords AND none of the high-severity cardiac terms of
`assess_risks` leaves both `comorbidities.cardiac` and
`risk_assessment.cardiac_risk` at the sentinel. -/
theorem C6_amended_sentinels_when_no_terms (t : Text)
    (h1 : noCardiacKeywordIn (lowerL t) = true)
    (h2 : noHighCardiacTermIn (lowerL t) = true) :
    (processData t freshInsight).pre_operative.comorbidities.cardiac = notFound ∧
    (processData t freshInsight).risk_assessment.cardiac_risk = notFound := by
  simp only [noCardiacKeywordIn, List.all_eq_true, Bool.not_eq_true'] at h1
  simp only [noHighCardiacTermIn, List.all_eq_true, Bool.not_eq_true'] at h2
  have hfil : cardiac_conditions_kw.filter (fun k => isInfixB k (lowerL t)) = [] := by
    rw [List.filter_eq_nil_iff]
    intro a ha
    simp [h1 a ha]
  have hany1 : cardiac_conditions_kw.any (fun k => isInfixB k (lowerL t)) = false := by
    rw [List.any_eq_false]
    intro a ha
    simp [h1 a ha]
  have hany2 : cardiac_high_terms.any (fun k => isInfixB k (lowerL t)) = false := by
    rw [List.any_eq_false]
    intro a ha
    simp [h2 a ha]
  constructor
  · simp only [processData_eq]
    show (cardiacComorbVal t).getD notFound = notFound
    simp [cardiacComorbVal, keywordJoinRaw, hfil]
  · simp only [processData_eq]
    show (cardiacRiskVal t).getD notFound = notFound
    simp [cardiacRiskVal, hany1, hany2]

/-- Claim C6 (amended) witness: a benign text sets neither cardiac leaf. -/
theorem C6_amended_sentinels_witness :
    (processData (str "healthy adult") freshInsight).pre_operative.comorbidities.cardiac =
      notFound ∧
    (processData (str "healthy adult") freshInsight).risk_assessment.cardiac_risk = notFound :=
  C6_amended_sentinels_when_no_terms (str "healthy adult") (by decide) (by decide)

/-- Claim C7: the extraction is deterministic (it is a pure function of the
input text and the incoming record) and idempotent — re-running the pipeline
on the same text leaves the record unchanged, so two successive calls on the
same text produce identical records once the metadata timestamp is excluded. -/
theorem C7_deterministic_idempotent (d : ClinicalInsight) (t : Text) :
    processData t (processData t d) = processData t d := by
  simp only [processData_eq]
  dsimp only [processNF]
  simp only [getD_idem]

/-- Claim C8: under Python dynamic typing, every text input succeeds and
returns a complete record (every schema key present), and every non-text
input fails with the `InvalidInputError`-class condition before any implicit
conversion — the only fatal case. -/
theorem C8_nontext_fails_text_total (now : Text) (d : ClinicalInsight) :
    (∀ s : Text,
      process_emr_checked now d (.ofStr s) = .ok (process_emr_text now d s) ∧
      (leaves (process_emr_text now d s).1).map Prod.fst = schemaKeys) ∧
    (∀ v : PyVal, (∀ s, v ≠ .ofStr s) →
      process_emr_checked now d v = .error "InvalidInputError: non-text EMR input") := by
  refine ⟨fun _ => ⟨rfl, rfl⟩, fun v hv => ?_⟩
  cases v with
  | ofStr s => exact absurd rfl (hv s)
  | ofInt n => rfl
  | ofNone => rfl

/-- Claim C8 witness: a concrete non-text input is rejected. -/
theorem C8_nontext_fails_text_total_witness :
    process_emr_checked (str "2026-10-12T00:00:00") freshInsight PyVal.ofNone =
      .error "InvalidInputError: non-text EMR input" :=
  (C8_nontext_fails_text_total (str "2026-10-12T00:00:00") freshInsight).2 PyVal.ofNone
    (fun _ h => PyVal.noConfusion h)

/-- Claim C10: a text containing `"warfarin"` but none of the three bleeding
literals populates `medications.anticoagulants` with the drug name while
`risk_assessment.bleeding_risk` stays at the sentinel — the bleeding tier
does not consult the anticoagulant keyword list. -/
theorem C10_anticoag_without_bleeding_risk :
    (processData (str "warfarin") freshInsight).pre_operative.medications.anticoagulants =
      str "Warfarin" ∧
    (processData (str "warfarin") freshInsight).risk_assessment.bleeding_risk = notFound ∧
    bleeding_terms.all (fun k => !(isInfixB k (str "warfarin"))) = true := by decide

/-- The cardiac comorbidity leaf of a fresh-bot extraction never contains the
characters `C` (67) or `M` (77): its value is either the sentinel or a
comma-join of keywords that occurred in the lower-cased text. -/
theorem cardiac_field_chars (t : Text) :
    ∀ c ∈ (cardiacComorbVal t).getD notFound, c ≠ 67 ∧ c ≠ 77 := by
  intro c hc
  cases hfil : cardiac_conditions_kw.filter (fun k => isInfixB k (lowerL t)) with
  | nil =>
    have hv : cardiacComorbVal t = none := by
      simp [cardiacComorbVal, keywordJoinRaw, hfil]
    rw [hv] at hc
    have hnf : ∀ x ∈ notFound, x ≠ 67 ∧ x ≠ 77 := by decide
    exact hnf c hc
  | cons a as =>
    have hv : cardiacComorbVal t = some (joinComma (a :: as)) := by
      simp [cardiacComorbVal, keywordJoinRaw, hfil]
    rw [hv] at hc
    simp only [Option.getD_some] at hc
    rcases mem_joinComma hc with h | h | ⟨l, hl, hcl⟩
    · subst h; exact ⟨by decide, by decide⟩
    · subst h; exact ⟨by decide, by decide⟩
    · have hl2 : l ∈ cardiac_conditions_kw.filter (fun k => isInfixB k (lowerL t)) := by
        rw [hfil]; exact hl
      have hmem := List.mem_filter.mp hl2
      have hclt : c ∈ lowerL t := isInfixB_subset hmem.2 c hcl
      have hup := mem_lowerL_not_upper hclt
      constructor <;> rintro rfl <;> revert hup <;> decide

/-- Claim C9: keyword-table entries written with uppercase letters can never
match the lower-cased text, so `comorbidities.cardiac` never contains `"CAD"`
or `"MI"` in any fresh-bot output, and a text naming conditions only by those
acronyms leaves the cardiac comorbidity at the sentinel and assigns no
Moderate cardiac-risk tier. -/
theorem C9_uppercase_keywords_dead :
    (∀ t : Text,
      upperAcronyms.all (fun k => !(isInfixB k (lowerL t))) = true ∧
      isInfixB (str "CAD")
        ((processData t freshInsight).pre_operative.comorbidities.cardiac) = false ∧
      isInfixB (str "MI")
        ((processData t freshInsight).pre_operative.comorbidities.cardiac) = false) ∧
    (processData (str "Dx: CAD, MI, CHF") freshInsight).pre_operative.comorbidities.cardiac =
      notFound ∧
    (processData (str "Dx: CAD, MI, CHF") freshInsight).risk_assessment.cardiac_risk =
      notFound := by
  refine ⟨fun t => ⟨?_, ?_, ?_⟩, by decide⟩
  · rw [List.all_eq_true]
    intro k hk
    fin_cases hk
    · rw [Bool.not_eq_true', show str "CAD" = 67 :: str "AD" from rfl]
      exact upper_headed_not_infix_lower (str "AD") t (by decide)
    · rw [Bool.not_eq_true', show str "MI" = 77 :: str "I" from rfl]
      exact upper_headed_not_infix_lower (str "I") t (by decide)
    · rw [Bool.not_eq_true', show str "CHF" = 67 :: str "HF" from rfl]
      exact upper_headed_not_infix_lower (str "HF") t (by decide)
    · rw [Bool.not_eq_true', show str "COPD" = 67 :: str "OPD" from rfl]
      exact upper_headed_not_infix_lower (str "OPD") t (by decide)
    · rw [Bool.not_eq_true', show str "OSA" = 79 :: str "SA" from rfl]
      exact upper_headed_not_infix_lower (str "SA") t (by decide)
    · rw [Bool.not_eq_true', show str "CKD" = 67 :: str "KD" from rfl]
      exact upper_headed_not_infix_lower (str "KD") t (by decide)
    · rw [Bool.not_eq_true', show str "DM" = 68 :: str "M" from rfl]
      exact upper_headed_not_infix_lower (str "M") t (by decide)
  · have hv : (processData t freshInsight).pre_operative.comorbidities.cardiac =
        (cardiacComorbVal t).getD notFound := rfl
    rw [hv]
    exact isInfixB_eq_false_of_missing (show 67 ∈ str "CAD" by decide)
      (fun hmem => (cardiac_field_chars t 67 hmem).1 rfl)
  · have hv : (processData t freshInsight).pre_operative.comorbidities.cardiac =
        (cardiacComorbVal t).getD notFound := rfl
    rw [hv]
    exact isInfixB_eq_false_of_missing (show 77 ∈ str "MI" by decide)
      (fun hmem => (cardiac_field_chars t 77 hmem).2 rfl)
